import Mathlib

/-!
Verification of the access-level resolution algorithm of
`posthog/rbac/user_access_control.py`.

The Python module is embedded shallowly: Python exceptions become
`Except String`, Django model instances become plain structures, the
object store becomes an explicit list of `AccessControl` records carried
in the resolver state, and the two feature gates become boolean fields.
The registry of valid resource kinds (`API_SCOPE_OBJECTS`, defined
outside the excerpt) is passed as an explicit list parameter.
-/

namespace UserAccessControlSpec

/-- A Django model instance, as far as the resolver inspects it:
its class name (`model.__class__.__name__`), its primary key already
rendered as a string (`str(obj.id)`), and its optional `created_by`
user (`getattr(obj, "created_by", None)`), identified by user id. -/
structure Obj where
  typeName : String
  id : String
  created_by : Option Nat
deriving DecidableEq, Repr

/-- An `AccessControl` record (stored grant or synthesized virtual grant):
team id, resource kind, resource id, optional scoping to an organization
member (identified by the user id of that member) or to a role (by role id),
and the granted access level. -/
structure AccessControl where
  team : Nat
  resource : String
  resource_id : String
  organization_member : Option Nat
  role : Option Nat
  access_level : String
deriving DecidableEq, Repr

/-- The constant `MEMBER_BASED_ACCESS_LEVELS` from the source. -/
def MEMBER_BASED_ACCESS_LEVELS : List String := ["none", "member", "admin"]

/-- The constant `RESOURCE_BASED_ACCESS_LEVELS` from the source. -/
def RESOURCE_BASED_ACCESS_LEVELS : List String := ["viewer", "editor"]

/-- The function `ordered_access_levels(resource)` from the source. -/
def ordered_access_levels (resource : String) : List String :=
  if resource ∈ ["project", "organization"] then MEMBER_BASED_ACCESS_LEVELS
  else RESOURCE_BASED_ACCESS_LEVELS

/-- The function `default_access_level(resource)` from the source. -/
def default_access_level (resource : String) : String :=
  if resource ∈ ["project", "organization"] then "member" else "editor"

/-- The Python method `list.index(a)`: the position of the first occurrence of `a`,
raising `ValueError` when `a` is absent. -/
def list_index : List String → String → Except String Nat
  | [], _ => .error "ValueError: not in list"
  | x :: xs, a =>
    if x = a then .ok 0
    else
      match list_index xs a with
      | .error e => .error e
      | .ok n => .ok (n + 1)

/-- Total companion of `list_index`: the position of the first occurrence
of `a` in `l` (meaningful when `a ∈ l`). -/
def level_index : List String → String → Nat
  | [], _ => 0
  | x :: xs, a => if x = a then 0 else level_index xs a + 1

/-- The Python method `str.lower()` as the resolver uses it, character by
character. (`Char.toLower` lower-cases exactly the ASCII range, which is
what Python does on the ASCII class names met here.) -/
def str_lower (s : String) : String := String.mk (s.data.map Char.toLower)

/-- The function `model_to_resource(model)` from the source: lower-case the class name,
rename `team` to `project` and `featureflag` to `feature_flag`, accept any
other name listed in the `API_SCOPE_OBJECTS` registry, and raise a
`ValueError` otherwise. -/
def model_to_resource (API_SCOPE_OBJECTS : List String) (obj : Obj) : Except String String :=
  let name := str_lower obj.typeName
  if name = "team" then .ok "project"
  else if name = "featureflag" then .ok "feature_flag"
  else if name ∈ API_SCOPE_OBJECTS then .ok name
  else .error ("Model " ++ name ++ " does not have a corresponding API scope object.")

/-- The function `access_level_satisfied(obj, current_level, required_level)` from the
source: compare the ordinal positions of the two levels in the ordering of the resource kind of the object. -/
def access_level_satisfied (API_SCOPE_OBJECTS : List String) (obj : Obj)
    (current_level required_level : String) : Except String Bool :=
  match model_to_resource API_SCOPE_OBJECTS obj with
  | .error e => .error e
  | .ok resource =>
    match list_index (ordered_access_levels resource) current_level with
    | .error e => .error e
    | .ok ci =>
      match list_index (ordered_access_levels resource) required_level with
      | .error e => .error e
      | .ok ri => .ok (decide (ci ≥ ri))

/-- Modelled from the spec: the admin ordinal of organization-membership
levels (`OrganizationMembership.Level.ADMIN`, defined outside the excerpt).
The spec only requires that ordinary-member levels lie below it; the
concrete value is immaterial to every theorem below. -/
def OrganizationMembership_Level_ADMIN : Nat := 8

/-- The state a `UserAccessControl` instance closes over, together with
the read-only data-store contents its queries consult: the bound user id
and team id, the (memoized) organization membership of the user as its
level ordinal when it exists, the two feature gates, the ids of the roles
held by the user (`user.role_memberships`), and the stored
`AccessControl` records. -/
structure UserAccessControl where
  user : Nat
  team : Nat
  org_membership : Option Nat
  rbac_supported : Bool
  access_controls_supported : Bool
  user_roles : List Nat
  store : List AccessControl
deriving DecidableEq, Repr

/-- The predicate of the three-branch `Q` filter in
`_access_controls_for_object`: a record matches when it is for the
current team, the resolved resource kind and resource id, and is either
team-wide (no member, no role), scoped to the membership of this user (no
role), or scoped to one of the given role ids (no member). -/
def ac_matches (team : Nat) (resource resource_id : String) (user : Nat)
    (role_ids : List Nat) (ac : AccessControl) : Bool :=
  ac.team == team && ac.resource == resource && ac.resource_id == resource_id &&
    ((ac.organization_member == none && ac.role == none) ||
     (ac.organization_member == some user && ac.role == none) ||
     (ac.organization_member == none &&
       (match ac.role with
        | some r => role_ids.contains r
        | none => false)))

/-- The method `_access_controls_for_object(obj)` from the source: resolve the
resource kind, take the role ids of the user only when role-based access
control is enabled (an empty role set otherwise), and return every stored
record matching the three-branch filter. -/
def _access_controls_for_object (uac : UserAccessControl)
    (obj : Obj) (API_SCOPE_OBJECTS : List String) : Except String (List AccessControl) :=
  match model_to_resource API_SCOPE_OBJECTS obj with
  | .error e => .error e
  | .ok resource =>
    let role_ids := if uac.rbac_supported then uac.user_roles else []
    .ok (uac.store.filter (ac_matches uac.team resource obj.id uac.user role_ids))

/-- One step of the Python call `max(..., key=...)`: fold over the remaining
elements keeping the current best, replacing it only on a strictly
greater key, and propagating any exception the key function raises. -/
def max_by_key_aux (key : AccessControl → Except String Nat) (best : AccessControl)
    (bestKey : Nat) : List AccessControl → Except String AccessControl
  | [] => .ok best
  | x :: xs =>
    match key x with
    | .error e => .error e
    | .ok kx =>
      if bestKey < kx then max_by_key_aux key x kx xs
      else max_by_key_aux key best bestKey xs

/-- The Python call `max(iterable, key=...)`: raises on an empty iterable,
otherwise returns the first element whose key is maximal, propagating
exceptions of the key function. -/
def python_max (key : AccessControl → Except String Nat) :
    List AccessControl → Except String AccessControl
  | [] => .error "ValueError: max() arg is an empty sequence"
  | x :: xs =>
    match key x with
    | .error e => .error e
    | .ok kx => max_by_key_aux key x kx xs

/-- The method `access_control_for_object(obj)` from the source, in the order the source uses: resolve the resource kind first, then return `None` when access
controls are unsupported or the user has no organization membership,
synthesize a top-level virtual grant for organization admins, synthesize
a default-level virtual grant when no stored record matches, and
otherwise return a matching record of maximal access level. -/
def access_control_for_object (uac : UserAccessControl)
    (API_SCOPE_OBJECTS : List String) (obj : Obj) : Except String (Option AccessControl) :=
  match model_to_resource API_SCOPE_OBJECTS obj with
  | .error e => .error e
  | .ok resource =>
    if !uac.access_controls_supported then .ok none
    else
      match uac.org_membership with
      | none => .ok none
      | some level =>
        if level ≥ OrganizationMembership_Level_ADMIN then
          .ok (some { team := uac.team, resource := resource, resource_id := obj.id,
                      organization_member := none, role := none,
                      access_level := (ordered_access_levels resource).getLastD "" })
        else
          match _access_controls_for_object uac obj API_SCOPE_OBJECTS with
          | .error e => .error e
          | .ok access_controls =>
            if access_controls.isEmpty then
              .ok (some { team := uac.team, resource := resource, resource_id := obj.id,
                          organization_member := none, role := none,
                          access_level := default_access_level resource })
            else
              match python_max
                  (fun ac => list_index (ordered_access_levels resource) ac.access_level)
                  access_controls with
              | .error e => .error e
              | .ok best => .ok (some best)

/-- The method `check_access_level_for_object(obj, required_level)` from the source.
The Python return annotation is `Optional[bool]`, hence the `Option Bool`;
note the body returns `False` — `some false` here — when no control
applies (`False if not access_control else ...`). -/
def check_access_level_for_object (uac : UserAccessControl)
    (API_SCOPE_OBJECTS : List String) (obj : Obj) (required_level : String) :
    Except String (Option Bool) :=
  match access_control_for_object uac API_SCOPE_OBJECTS obj with
  | .error e => .error e
  | .ok none => .ok (some false)
  | .ok (some access_control) =>
    match access_level_satisfied API_SCOPE_OBJECTS obj access_control.access_level
        required_level with
    | .error e => .error e
    | .ok b => .ok (some b)

/-- The `_team` bound to the resolver, viewed as a model object: its class
is `Team` and its primary key is the team id of the resolver. (Its
`created_by` is never consulted on this path.) -/
def team_as_obj (uac : UserAccessControl) : Obj :=
  { typeName := "Team", id := toString uac.team, created_by := none }

/-- The method `check_can_modify_access_levels_for_object(obj)` from the source:
creators may always modify; otherwise the answer is the admin-level check
against the own team of the resolver. -/
def check_can_modify_access_levels_for_object (uac : UserAccessControl)
    (API_SCOPE_OBJECTS : List String) (obj : Obj) : Except String (Option Bool) :=
  if obj.created_by = some uac.user then .ok (some true)
  else check_access_level_for_object uac API_SCOPE_OBJECTS (team_as_obj uac) "admin"

/-! ### Helper lemmas -/

theorem list_index_of_mem {l : List String} {a : String} (h : a ∈ l) :
    list_index l a = .ok (level_index l a) := by
  induction l with
  | nil => cases h
  | cons x xs ih =>
    by_cases hx : x = a
    · simp [list_index, level_index, hx]
    · have ha : a ∈ xs := by
        cases h with
        | head => exact absurd rfl hx
        | tail _ h' => exact h'
      simp [list_index, level_index, hx, ih ha]

theorem list_index_ok {l : List String} {a : String} {n : Nat}
    (h : list_index l a = .ok n) : a ∈ l ∧ level_index l a = n := by
  induction l generalizing n with
  | nil => simp [list_index] at h
  | cons x xs ih =>
    by_cases hx : x = a
    · simp [list_index, hx] at h
      exact ⟨List.mem_cons.mpr (Or.inl hx.symm), by simp [level_index, hx, h]⟩
    · simp [list_index, hx] at h
      cases heq : list_index xs a with
      | error e => rw [heq] at h; cases h
      | ok m =>
        rw [heq] at h
        simp at h
        obtain ⟨hmem, hidx⟩ := ih heq
        exact ⟨List.mem_cons.mpr (Or.inr hmem), by simp [level_index, hx, hidx, h]⟩

theorem list_index_of_not_mem {l : List String} {a : String} (h : a ∉ l) :
    list_index l a = .error "ValueError: not in list" := by
  induction l with
  | nil => rfl
  | cons x xs ih =>
    have hx : ¬ x = a := fun e => h (List.mem_cons.mpr (Or.inl e.symm))
    have ha : a ∉ xs := fun m => h (List.mem_cons.mpr (Or.inr m))
    simp [list_index, hx, ih ha]

theorem max_by_key_aux_spec (key : AccessControl → Except String Nat)
    (f : AccessControl → Nat) (xs : List AccessControl) :
    ∀ best : AccessControl, (∀ x ∈ xs, key x = .ok (f x)) →
    ∃ r, max_by_key_aux key best (f best) xs = .ok r ∧
      (r = best ∨ r ∈ xs) ∧ f best ≤ f r ∧ ∀ x ∈ xs, f x ≤ f r := by
  induction xs with
  | nil => exact fun best _ => ⟨best, rfl, Or.inl rfl, le_refl _, by simp⟩
  | cons x xs ih =>
    intro best hkey
    have hkx : key x = .ok (f x) := hkey x (List.mem_cons_self x xs)
    have hkey' : ∀ y ∈ xs, key y = .ok (f y) :=
      fun y hy => hkey y (List.mem_cons_of_mem x hy)
    by_cases hlt : f best < f x
    · obtain ⟨r, hr, hmem, hle, hall⟩ := ih x hkey'
      refine ⟨r, by simp [max_by_key_aux, hkx, hlt, hr], ?_, le_trans (le_of_lt hlt) hle, ?_⟩
      · rcases hmem with h | h
        · exact Or.inr (by rw [h]; exact List.mem_cons_self x xs)
        · exact Or.inr (List.mem_cons_of_mem x h)
      · intro y hy
        rcases List.mem_cons.mp hy with h | h
        · rw [h]; exact hle
        · exact hall y h
    · obtain ⟨r, hr, hmem, hle, hall⟩ := ih best hkey'
      refine ⟨r, by simp [max_by_key_aux, hkx, hlt, hr], ?_, hle, ?_⟩
      · rcases hmem with h | h
        · exact Or.inl h
        · exact Or.inr (List.mem_cons_of_mem x h)
      · intro y hy
        rcases List.mem_cons.mp hy with h | h
        · rw [h]; exact le_trans (Nat.le_of_not_lt hlt) hle
        · exact hall y h

theorem python_max_spec (key : AccessControl → Except String Nat)
    (f : AccessControl → Nat) (l : List AccessControl)
    (hne : l ≠ []) (hkey : ∀ x ∈ l, key x = .ok (f x)) :
    ∃ r, python_max key l = .ok r ∧ r ∈ l ∧ ∀ x ∈ l, f x ≤ f r := by
  match l with
  | [] => exact absurd rfl hne
  | x :: xs =>
    have hkx : key x = .ok (f x) := hkey x (List.mem_cons_self x xs)
    have hkey' : ∀ y ∈ xs, key y = .ok (f y) :=
      fun y hy => hkey y (List.mem_cons_of_mem x hy)
    obtain ⟨r, hr, hmem, hle, hall⟩ := max_by_key_aux_spec key f xs x hkey'
    refine ⟨r, by simp [python_max, hkx, hr], ?_, ?_⟩
    · rcases hmem with h | h
      · rw [h]; exact List.mem_cons_self x xs
      · exact List.mem_cons_of_mem x h
    · intro y hy
      rcases List.mem_cons.mp hy with h | h
      · rw [h]; exact hle
      · exact hall y h

theorem access_control_for_object_nonadmin (uac : UserAccessControl)
    (reg : List String) (obj : Obj) (resource : String) (level : Nat)
    {acs : List AccessControl}
    (hm : model_to_resource reg obj = .ok resource)
    (hs : uac.access_controls_supported = true)
    (ho : uac.org_membership = some level)
    (hl : level < OrganizationMembership_Level_ADMIN)
    (hacs : _access_controls_for_object uac obj reg = .ok acs) :
    access_control_for_object uac reg obj =
      if acs.isEmpty then
        .ok (some { team := uac.team, resource := resource, resource_id := obj.id,
                    organization_member := none, role := none,
                    access_level := default_access_level resource })
      else
        match python_max
            (fun ac => list_index (ordered_access_levels resource) ac.access_level) acs with
        | .error e => .error e
        | .ok best => .ok (some best) := by
  unfold access_control_for_object
  rw [hm]
  simp [hs, ho, not_le.mpr hl, hacs]

/-! ### Claim C1 -/

/-- A registry holding the resource kinds the examples below use. -/
def registryC1 : List String := ["project", "organization", "feature_flag", "dashboard"]

/-- A dashboard object, as an example input. -/
def objC1 : Obj := { typeName := "Dashboard", id := "1", created_by := none }

/-- A resolver for an ordinary member of an organization without the
access-control features. -/
def uacC1 : UserAccessControl :=
  { user := 1, team := 1, org_membership := some 1, rbac_supported := false,
    access_controls_supported := false, user_roles := [], store := [] }

/-- Claim C1: with access-control support disabled,
`access_control_for_object` returns no control, yet
`check_access_level_for_object` answers `False` (`some false`) — not the
distinct unrestricted signal `None` that the claim (and the docstring of
the function itself) describes. -/
theorem check_access_level_no_control_returns_false :
    access_control_for_object uacC1 registryC1 objC1 = .ok none ∧
    check_access_level_for_object uacC1 registryC1 objC1 "viewer" = .ok (some false) ∧
    (Except.ok (some false) : Except String (Option Bool)) ≠ .ok none :=
  ⟨rfl, rfl, by simp⟩

/-! ### Claim C2 -/

theorem getLastD_is_max_level (resource : String) :
    ∀ l ∈ ordered_access_levels resource,
      level_index (ordered_access_levels resource) l ≤
        level_index (ordered_access_levels resource)
          ((ordered_access_levels resource).getLastD "") := by
  unfold ordered_access_levels
  split <;> decide

/-- Claim C2: with access-control support enabled, an organization member
at or above the admin level receives a virtual grant at the last element
of the ordering of the resource kind — which is maximal under
`level_index` — whatever the store holds. -/
theorem org_admin_gets_max_level (uac : UserAccessControl) (reg : List String)
    (obj : Obj) (resource : String) (level : Nat)
    (hm : model_to_resource reg obj = .ok resource)
    (hs : uac.access_controls_supported = true)
    (ho : uac.org_membership = some level)
    (hl : level ≥ OrganizationMembership_Level_ADMIN) :
    access_control_for_object uac reg obj =
      .ok (some { team := uac.team, resource := resource, resource_id := obj.id,
                  organization_member := none, role := none,
                  access_level := (ordered_access_levels resource).getLastD "" }) ∧
    ∀ l ∈ ordered_access_levels resource,
      level_index (ordered_access_levels resource) l ≤
        level_index (ordered_access_levels resource)
          ((ordered_access_levels resource).getLastD "") := by
  refine ⟨?_, getLastD_is_max_level resource⟩
  unfold access_control_for_object
  rw [hm]
  simp [hs, ho, hl]

/-- A registry for the C2 example. -/
def registryC2 : List String := ["project", "organization", "feature_flag", "dashboard"]

/-- A dashboard object for the C2 example. -/
def objC2 : Obj := { typeName := "Dashboard", id := "7", created_by := none }

/-- An organization admin whose store nevertheless holds a `viewer`
grant for the object. -/
def uacC2 : UserAccessControl :=
  { user := 3, team := 2, org_membership := some 8, rbac_supported := false,
    access_controls_supported := true, user_roles := [],
    store := [{ team := 2, resource := "dashboard", resource_id := "7",
                organization_member := some 3, role := none, access_level := "viewer" }] }

/-- Claim C2, witnessed: the admin receives the top `editor` level on a
dashboard despite the stored `viewer` grant. -/
theorem org_admin_gets_max_level_witness :
    access_control_for_object uacC2 registryC2 objC2 =
      .ok (some { team := 2, resource := "dashboard", resource_id := "7",
                  organization_member := none, role := none,
                  access_level := "editor" }) :=
  (org_admin_gets_max_level uacC2 registryC2 objC2 "dashboard" 8 rfl rfl rfl
    (by decide)).1

/-! ### Claim C3 -/

/-- A registry for the C3 example. -/
def registryC3 : List String := ["project", "organization", "feature_flag", "dashboard"]

/-- A dashboard object for the C3 example. -/
def objC3 : Obj := { typeName := "Dashboard", id := "4", created_by := none }

/-- A member of an organization with access-control support disabled,
whose store still holds a grant matching the object. -/
def uacC3 : UserAccessControl :=
  { user := 2, team := 1, org_membership := some 1, rbac_supported := false,
    access_controls_supported := false, user_roles := [],
    store := [{ team := 1, resource := "dashboard", resource_id := "4",
                organization_member := some 2, role := none, access_level := "editor" }] }

/-- An object whose class name maps to no registered resource kind. -/
def objC3bad : Obj := { typeName := "Widget", id := "1", created_by := none }

/-- Claim C3, counterexample to "for every object": the resource kind is
resolved before the support gate, so with support disabled an object of
unknown kind makes `access_control_for_object` raise instead of
returning the no-control signal. -/
theorem unsupported_unknown_kind_raises :
    uacC3.access_controls_supported = false ∧
    access_control_for_object uacC3 registryC3 objC3bad =
      .error "Model widget does not have a corresponding API scope object." ∧
    access_control_for_object uacC3 registryC3 objC3bad ≠ .ok none := by
  refine ⟨rfl, rfl, ?_⟩
  intro h
  have h2 : access_control_for_object uacC3 registryC3 objC3bad =
      .error "Model widget does not have a corresponding API scope object." := rfl
  rw [h2] at h
  cases h

/-- Claim C3 (amended): when access-control support is disabled,
`access_control_for_object` returns no control for every object whose
resource kind resolves, whatever grants the store holds. -/
theorem unsupported_returns_no_control (uac : UserAccessControl) (reg : List String)
    (obj : Obj) (resource : String)
    (hm : model_to_resource reg obj = .ok resource)
    (hs : uac.access_controls_supported = false) :
    access_control_for_object uac reg obj = .ok none := by
  unfold access_control_for_object
  rw [hm]
  simp [hs]

/-- Claim C3, witnessed: no control despite a stored matching grant. -/
theorem unsupported_returns_no_control_witness :
    access_control_for_object uacC3 registryC3 objC3 = .ok none :=
  unsupported_returns_no_control uacC3 registryC3 objC3 "dashboard" rfl rfl

/-! ### Claim C4 -/

/-- Claim C4: for a non-admin member with support enabled, when the
effective grant set is non-empty (and, per the stated invariant, every
grant in it carries a level valid for the kind),
`access_control_for_object` returns a member of that set whose level is
maximal under the ordering of the kind. -/
theorem nonempty_grants_resolve_to_max (uac : UserAccessControl) (reg : List String)
    (obj : Obj) (resource : String) (level : Nat) (acs : List AccessControl)
    (hm : model_to_resource reg obj = .ok resource)
    (hs : uac.access_controls_supported = true)
    (ho : uac.org_membership = some level)
    (hl : level < OrganizationMembership_Level_ADMIN)
    (hacs : _access_controls_for_object uac obj reg = .ok acs)
    (hne : acs ≠ [])
    (hvalid : ∀ ac ∈ acs, ac.access_level ∈ ordered_access_levels resource) :
    ∃ ac, access_control_for_object uac reg obj = .ok (some ac) ∧ ac ∈ acs ∧
      ∀ b ∈ acs, level_index (ordered_access_levels resource) b.access_level ≤
        level_index (ordered_access_levels resource) ac.access_level := by
  have hkey : ∀ x ∈ acs,
      (fun ac => list_index (ordered_access_levels resource) ac.access_level) x
        = .ok (level_index (ordered_access_levels resource) x.access_level) :=
    fun x hx => list_index_of_mem (hvalid x hx)
  obtain ⟨r, hr, hmem, hall⟩ := python_max_spec _
    (fun ac => level_index (ordered_access_levels resource) ac.access_level) acs hne hkey
  refine ⟨r, ?_, hmem, hall⟩
  rw [access_control_for_object_nonadmin uac reg obj resource level hm hs ho hl hacs]
  simp [List.isEmpty_iff, hne, hr]

/-- A registry for the C4 example. -/
def registryC4 : List String := ["project", "organization", "feature_flag", "dashboard"]

/-- A dashboard object for the C4 example. -/
def objC4 : Obj := { typeName := "Dashboard", id := "5", created_by := some 9 }

/-- A team-wide `viewer` grant on the dashboard. -/
def grantViewerC4 : AccessControl :=
  { team := 1, resource := "dashboard", resource_id := "5",
    organization_member := none, role := none, access_level := "viewer" }

/-- A user-scoped `editor` grant on the same dashboard. -/
def grantEditorC4 : AccessControl :=
  { team := 1, resource := "dashboard", resource_id := "5",
    organization_member := some 1, role := none, access_level := "editor" }

/-- A non-admin member whose store holds both grants. -/
def uacC4 : UserAccessControl :=
  { user := 1, team := 1, org_membership := some 1, rbac_supported := false,
    access_controls_supported := true, user_roles := [],
    store := [grantViewerC4, grantEditorC4] }

/-- The effective grant set of `uacC4` on `objC4`. -/
def acsC4 : List AccessControl := [grantViewerC4, grantEditorC4]

/-- Claim C4, witnessed: grants `[viewer, editor]` resolve to a maximal
element of the set. -/
theorem nonempty_grants_resolve_to_max_witness :
    ∃ ac, access_control_for_object uacC4 registryC4 objC4 = .ok (some ac) ∧
      ac ∈ acsC4 ∧
      ∀ b ∈ acsC4, level_index (ordered_access_levels "dashboard") b.access_level ≤
        level_index (ordered_access_levels "dashboard") ac.access_level :=
  nonempty_grants_resolve_to_max uacC4 registryC4 objC4 "dashboard" 1 acsC4
    rfl rfl rfl (by decide) rfl (by decide) (by decide)

/-! ### Claim C5 -/

/-- Claim C5: for a non-admin member with support enabled, an empty
effective grant set resolves to a virtual grant at the default level of
the kind — `member` for `project`/`organization`, `editor` otherwise. -/
theorem empty_grants_resolve_to_default (uac : UserAccessControl) (reg : List String)
    (obj : Obj) (resource : String) (level : Nat)
    (hm : model_to_resource reg obj = .ok resource)
    (hs : uac.access_controls_supported = true)
    (ho : uac.org_membership = some level)
    (hl : level < OrganizationMembership_Level_ADMIN)
    (hacs : _access_controls_for_object uac obj reg = .ok []) :
    access_control_for_object uac reg obj =
      .ok (some { team := uac.team, resource := resource, resource_id := obj.id,
                  organization_member := none, role := none,
                  access_level := default_access_level resource }) ∧
    (resource ∈ ["project", "organization"] → default_access_level resource = "member") ∧
    (resource ∉ ["project", "organization"] → default_access_level resource = "editor") := by
  refine ⟨?_, ?_, ?_⟩
  · rw [access_control_for_object_nonadmin uac reg obj resource level hm hs ho hl hacs]
    simp
  · intro h; simp [default_access_level, h]
  · intro h; simp [default_access_level, h]

/-- A registry for the C5 example. -/
def registryC5 : List String := ["project", "organization", "feature_flag", "dashboard"]

/-- A dashboard object for the C5 example. -/
def objC5 : Obj := { typeName := "Dashboard", id := "6", created_by := none }

/-- A non-admin member with no stored grant matching the object (the one
stored grant is for a different dashboard). -/
def uacC5 : UserAccessControl :=
  { user := 4, team := 3, org_membership := some 1, rbac_supported := false,
    access_controls_supported := true, user_roles := [],
    store := [{ team := 3, resource := "dashboard", resource_id := "99",
                organization_member := none, role := none, access_level := "viewer" }] }

/-- Claim C5, witnessed: with no matching grant the dashboard resolves to
the default `editor` level. -/
theorem empty_grants_resolve_to_default_witness :
    access_control_for_object uacC5 registryC5 objC5 =
      .ok (some { team := 3, resource := "dashboard", resource_id := "6",
                  organization_member := none, role := none,
                  access_level := "editor" }) :=
  (empty_grants_resolve_to_default uacC5 registryC5 objC5 "dashboard" 1
    rfl rfl rfl (by decide) rfl).1

/-! ### Claim C6 -/

/-- Claim C6: with role-based access control disabled, the effective
grant set is computed from an empty role set — it coincides with the set
computed for a user holding no roles at all — and no role-scoped grant
ever appears in it, whatever roles the user holds. -/
theorem rbac_disabled_ignores_role_grants (uac : UserAccessControl)
    (reg : List String) (obj : Obj)
    (hr : uac.rbac_supported = false) :
    _access_controls_for_object uac obj reg =
      _access_controls_for_object { uac with user_roles := [] } obj reg ∧
    ∀ acs, _access_controls_for_object uac obj reg = .ok acs →
      ∀ ac ∈ acs, ac.role = none := by
  constructor
  · unfold _access_controls_for_object
    cases hmtr : model_to_resource reg obj <;> simp [hmtr, hr]
  · intro acs hacs ac hac
    unfold _access_controls_for_object at hacs
    cases hmtr : model_to_resource reg obj with
    | error e => rw [hmtr] at hacs; cases hacs
    | ok resource =>
      rw [hmtr] at hacs
      simp [hr] at hacs
      subst hacs
      have hmatch := List.of_mem_filter hac
      cases hrole : ac.role with
      | none => rfl
      | some r => simp [ac_matches, hrole] at hmatch

/-- A registry for the C6 example. -/
def registryC6 : List String := ["project", "organization", "feature_flag", "dashboard"]

/-- A dashboard object for the C6 example. -/
def objC6 : Obj := { typeName := "Dashboard", id := "8", created_by := none }

/-- A member holding role `7` in an organization without role-based
access control; the store holds a grant scoped to that very role next to
a team-wide grant. -/
def uacC6 : UserAccessControl :=
  { user := 5, team := 1, org_membership := some 1, rbac_supported := false,
    access_controls_supported := true, user_roles := [7],
    store := [{ team := 1, resource := "dashboard", resource_id := "8",
                organization_member := none, role := some 7, access_level := "editor" },
              { team := 1, resource := "dashboard", resource_id := "8",
                organization_member := none, role := none, access_level := "viewer" }] }

/-- Claim C6, witnessed: the grant scoped to the held role `7` is ignored
entirely. -/
theorem rbac_disabled_ignores_role_grants_witness :
    _access_controls_for_object uacC6 objC6 registryC6 =
      _access_controls_for_object { uacC6 with user_roles := [] } objC6 registryC6 ∧
    ∀ acs, _access_controls_for_object uacC6 objC6 registryC6 = .ok acs →
      ∀ ac ∈ acs, ac.role = none :=
  rbac_disabled_ignores_role_grants uacC6 registryC6 objC6 rfl

/-! ### Claim C7 -/

theorem access_level_satisfied_eq {reg : List String} {obj : Obj}
    {resource L1 L2 : String}
    (hm : model_to_resource reg obj = .ok resource)
    (h1 : L1 ∈ ordered_access_levels resource)
    (h2 : L2 ∈ ordered_access_levels resource) :
    access_level_satisfied reg obj L1 L2 =
      .ok (decide (level_index (ordered_access_levels resource) L1 ≥
        level_index (ordered_access_levels resource) L2)) := by
  unfold access_level_satisfied
  simp only [hm, list_index_of_mem h1, list_index_of_mem h2]

/-- Claim C7: on levels of the ordering of the resource kind,
`access_level_satisfied` answers true exactly when the ordinal position
of the current level is at least that of the required one; consequently
it is reflexive, and it is transitive outright. -/
theorem access_level_satisfied_iff_index (reg : List String) (obj : Obj)
    (resource L1 L2 L3 : String) :
    (model_to_resource reg obj = .ok resource →
      L1 ∈ ordered_access_levels resource → L2 ∈ ordered_access_levels resource →
      (access_level_satisfied reg obj L1 L2 = .ok true ↔
        level_index (ordered_access_levels resource) L1 ≥
          level_index (ordered_access_levels resource) L2)) ∧
    (model_to_resource reg obj = .ok resource →
      L1 ∈ ordered_access_levels resource →
      access_level_satisfied reg obj L1 L1 = .ok true) ∧
    (access_level_satisfied reg obj L1 L2 = .ok true →
      access_level_satisfied reg obj L2 L3 = .ok true →
      access_level_satisfied reg obj L1 L3 = .ok true) := by
  refine ⟨?_, ?_, ?_⟩
  · intro hm h1 h2
    rw [access_level_satisfied_eq hm h1 h2]
    simp
  · intro hm h1
    rw [access_level_satisfied_eq hm h1 h1]
    simp
  · intro h12 h23
    unfold access_level_satisfied at h12 h23 ⊢
    cases hmtr : model_to_resource reg obj with
    | error e => simp [hmtr] at h12
    | ok res =>
      simp only [hmtr] at h12 h23 ⊢
      cases hi1 : list_index (ordered_access_levels res) L1 with
      | error e => simp [hi1] at h12
      | ok i1 =>
        simp only [hi1] at h12 ⊢
        cases hi2 : list_index (ordered_access_levels res) L2 with
        | error e => simp [hi2] at h12
        | ok i2 =>
          simp only [hi2] at h12 h23
          cases hi3 : list_index (ordered_access_levels res) L3 with
          | error e => simp [hi3] at h23
          | ok i3 =>
            simp only [hi3] at h23 ⊢
            simp at h12 h23 ⊢
            exact le_trans h23 h12

/-- A registry for the C7 example. -/
def registryC7 : List String := ["project", "organization", "feature_flag", "dashboard"]

/-- A dashboard object for the C7 example. -/
def objC7 : Obj := { typeName := "Dashboard", id := "2", created_by := none }

/-- Claim C7, witnessed: on a dashboard, `editor` satisfies `viewer`. -/
theorem access_level_satisfied_iff_index_witness :
    access_level_satisfied registryC7 objC7 "editor" "viewer" = .ok true :=
  ((access_level_satisfied_iff_index registryC7 objC7 "dashboard"
      "editor" "viewer" "viewer").1 rfl (by decide) (by decide)).mpr (by decide)

/-! ### Claim C8 -/

/-- A registry for the C8 examples. -/
def registryC8 : List String := ["project", "organization", "feature_flag", "dashboard"]

/-- A dashboard created by user `99`. -/
def objC8 : Obj := { typeName := "Dashboard", id := "5", created_by := some 99 }

/-- A non-admin member holding an `admin` grant on the team itself. -/
def uacC8admin : UserAccessControl :=
  { user := 1, team := 1, org_membership := some 1, rbac_supported := false,
    access_controls_supported := true, user_roles := [],
    store := [{ team := 1, resource := "project", resource_id := "1",
                organization_member := some 1, role := none, access_level := "admin" }] }

/-- A non-admin member whose only grant is object-level `editor` on the
dashboard — no team-level admin access. -/
def uacC8editor : UserAccessControl :=
  { user := 1, team := 1, org_membership := some 1, rbac_supported := false,
    access_controls_supported := true, user_roles := [],
    store := [{ team := 1, resource := "dashboard", resource_id := "5",
                organization_member := some 1, role := none, access_level := "editor" }] }

/-- Claim C8: creators can always modify access levels; everyone else
gets exactly the admin-level check against the team itself — which
passes for a holder of a team `admin` grant and fails for a non-creator
whose only grant is object-level `editor`. -/
theorem can_modify_is_creator_or_team_admin :
    (∀ (uac : UserAccessControl) (reg : List String) (obj : Obj),
      obj.created_by = some uac.user →
        check_can_modify_access_levels_for_object uac reg obj = .ok (some true)) ∧
    (∀ (uac : UserAccessControl) (reg : List String) (obj : Obj),
      obj.created_by ≠ some uac.user →
        check_can_modify_access_levels_for_object uac reg obj =
          check_access_level_for_object uac reg (team_as_obj uac) "admin") ∧
    check_can_modify_access_levels_for_object uacC8admin registryC8 objC8 =
      .ok (some true) ∧
    check_can_modify_access_levels_for_object uacC8editor registryC8 objC8 =
      .ok (some false) := by
  refine ⟨?_, ?_, rfl, rfl⟩
  · intro uac reg obj h
    unfold check_can_modify_access_levels_for_object
    simp [h]
  · intro uac reg obj h
    unfold check_can_modify_access_levels_for_object
    simp [h]

/-- A dashboard created by user `1` for the C8 witness. -/
def objC8creator : Obj := { typeName := "Dashboard", id := "5", created_by := some 1 }

/-- Claim C8, witnessed: the creator may modify access levels even
without any team admin access. -/
theorem can_modify_is_creator_or_team_admin_witness :
    check_can_modify_access_levels_for_object uacC8editor registryC8 objC8creator =
      .ok (some true) :=
  can_modify_is_creator_or_team_admin.1 uacC8editor registryC8 objC8creator rfl

/-! ### Claim C9 -/

/-- Claim C9: `model_to_resource` lower-cases the class name, applies
exactly the renames `team` to `project` and `featureflag` to
`feature_flag`, returns any other name found in the registry, and raises
on a name absent from it — an error `access_control_for_object`
propagates unrecovered. -/
theorem model_to_resource_spec (reg : List String) (obj : Obj) :
    (str_lower obj.typeName = "team" → model_to_resource reg obj = .ok "project") ∧
    (str_lower obj.typeName = "featureflag" →
      model_to_resource reg obj = .ok "feature_flag") ∧
    (str_lower obj.typeName ≠ "team" → str_lower obj.typeName ≠ "featureflag" →
      str_lower obj.typeName ∈ reg →
      model_to_resource reg obj = .ok (str_lower obj.typeName)) ∧
    (str_lower obj.typeName ≠ "team" → str_lower obj.typeName ≠ "featureflag" →
      str_lower obj.typeName ∉ reg →
      model_to_resource reg obj = .error ("Model " ++ str_lower obj.typeName ++
          " does not have a corresponding API scope object.") ∧
      ∀ uac : UserAccessControl, access_control_for_object uac reg obj =
        .error ("Model " ++ str_lower obj.typeName ++
          " does not have a corresponding API scope object.")) := by
  refine ⟨?_, ?_, ?_, ?_⟩
  · intro h; unfold model_to_resource; simp [h]
  · intro h; unfold model_to_resource; simp [h]
  · intro h1 h2 h3; unfold model_to_resource; simp [h1, h2, h3]
  · intro h1 h2 h3
    have hmtr : model_to_resource reg obj = .error ("Model " ++ str_lower obj.typeName ++
        " does not have a corresponding API scope object.") := by
      unfold model_to_resource; simp [h1, h2, h3]
    refine ⟨hmtr, ?_⟩
    intro uac
    unfold access_control_for_object
    simp [hmtr]

/-- A registry for the C9 witness. -/
def registryC9 : List String := ["project", "organization", "feature_flag", "dashboard"]

/-- An object whose class maps to no registered resource kind. -/
def objC9 : Obj := { typeName := "Widget", id := "3", created_by := none }

/-- Claim C9, witnessed: `Widget` lower-cases to `widget`, which is
absent from the registry, so resolution raises. -/
theorem model_to_resource_spec_witness :
    model_to_resource registryC9 objC9 =
      .error "Model widget does not have a corresponding API scope object." :=
  ((model_to_resource_spec registryC9 objC9).2.2.2 (by decide) (by decide)
    (by decide)).1

/-! ### Claim C10 -/

/-- Claim C10: when the required level does not belong to the ordering of
the resource kind, the ordinal-index lookup raises — `access_level_satisfied`
returns an error, never `false`, and `check_access_level_for_object`
propagates that error whenever a control is returned. -/
theorem required_level_outside_ordering_raises (reg : List String) (obj : Obj)
    (resource current required : String)
    (hm : model_to_resource reg obj = .ok resource)
    (hreq : required ∉ ordered_access_levels resource) :
    (∃ e, access_level_satisfied reg obj current required = .error e) ∧
    ∀ (uac : UserAccessControl) (ac : AccessControl),
      access_control_for_object uac reg obj = .ok (some ac) →
      ∃ e, check_access_level_for_object uac reg obj required = .error e := by
  have hsat : ∀ cur : String,
      ∃ e, access_level_satisfied reg obj cur required = .error e := by
    intro cur
    unfold access_level_satisfied
    cases hci : list_index (ordered_access_levels resource) cur with
    | error e => exact ⟨e, by simp [hm, hci]⟩
    | ok ci =>
      exact ⟨"ValueError: not in list",
        by simp [hm, hci, list_index_of_not_mem hreq]⟩
  refine ⟨hsat current, ?_⟩
  intro uac ac hac
  obtain ⟨e, he⟩ := hsat ac.access_level
  refine ⟨e, ?_⟩
  unfold check_access_level_for_object
  simp [hac, he]

/-- A registry for the C10 witness. -/
def registryC10 : List String := ["project", "organization", "feature_flag", "dashboard"]

/-- A dashboard object for the C10 witness. -/
def objC10 : Obj := { typeName := "Dashboard", id := "5", created_by := none }

/-- A non-admin member with no stored grants, so the dashboard resolves
to the default `editor` control. -/
def uacC10 : UserAccessControl :=
  { user := 1, team := 1, org_membership := some 1, rbac_supported := false,
    access_controls_supported := true, user_roles := [], store := [] }

/-- Claim C10, witnessed: checking `admin` against a dashboard — whose
ordering is `[viewer, editor]` — raises instead of answering false. -/
theorem required_level_outside_ordering_raises_witness :
    ∃ e, check_access_level_for_object uacC10 registryC10 objC10 "admin" = .error e :=
  (required_level_outside_ordering_raises registryC10 objC10 "dashboard"
      "viewer" "admin" rfl (by decide)).2 uacC10
    { team := 1, resource := "dashboard", resource_id := "5",
      organization_member := none, role := none, access_level := "editor" } rfl

end UserAccessControlSpec
